import Mathlib

/-!
Shallow embedding of the sixfive virtual machine (cpu.rs, sound.rs, params.rs).

Machine integers are modelled as `Nat` with explicit wrapping (`% 256`,
`% 65536`) where the Rust code wraps.  `f32`/`f64` audio arithmetic is
modelled exactly over `ℚ` (the idealisation of the float formulas; Rust
`%` on floats is the truncated remainder, mirrored by `rustRem`).
Rust `panic!` (and debug-profile arithmetic aborts) are modelled by
`Option`; so is float arithmetic with no finite defined result (NaN from
a division by zero): `none` is a panic or a NaN, `some` a normal result.
-/

namespace SixFive

/-- Truncation of a rational toward zero, the semantics of Rust float-to-int
casts and of the float remainder operator. -/
def ratTrunc (q : ℚ) : ℤ := if 0 ≤ q then ⌊q⌋ else ⌈q⌉

/-- Rust floating remainder `a % b` (truncated division remainder), exactly
over `ℚ` for a nonzero divisor.  For `b = 0` Rust produces NaN, modelled
as `none`. -/
def rustRem (a b : ℚ) : Option ℚ :=
  if b = 0 then none else some (a - b * ratTrunc (a / b))

/-- sound.rs: `CHANNEL_MAX_VOLUME`. -/
def CHANNEL_MAX_VOLUME : ℚ := 15

namespace conversions

/-- sound.rs: `conversions::note_period_to_seconds`. -/
def note_period_to_seconds (period : Nat) : ℚ :=
  let frequency : ℚ := 1789773 / (16 * ((period : ℚ) + 1))
  1 / frequency

/-- sound.rs: `conversions::note_length_to_seconds`. -/
def note_length_to_seconds (length : Nat) : ℚ :=
  (length : ℚ) * 1 / 60

/-- sound.rs: `conversions::envelope_length_to_seconds`. -/
def envelope_length_to_seconds (length : Nat) : ℚ :=
  (length : ℚ) * 1 / 15

/-- sound.rs: `conversions::seconds_to_shift_steps`; the `as u16` cast
truncates toward zero and saturates at the type bounds. -/
def seconds_to_shift_steps (seconds : ℚ) : Nat :=
  (max 0 (min (ratTrunc (seconds / (60 * 2))) 65535)).toNat

end conversions

/-- sound.rs: `struct ChannelRegisters`. -/
structure ChannelRegisters where
  duty_cycle : Nat
  looping : Bool
  envelope : Bool
  envelope_length : Nat
  shift_enabled : Bool
  shift_period : Nat
  shift_reverse : Bool
  shift_speed : Nat
  period : Nat
  note_length : Nat
  time_since_note : ℚ

namespace ChannelRegisters

/-- sound.rs: `impl Default for ChannelRegisters`. -/
def default : ChannelRegisters :=
  { duty_cycle := 0
    looping := false
    envelope := false
    envelope_length := 0
    shift_enabled := false
    shift_period := 0
    shift_reverse := false
    shift_speed := 0
    period := 0
    note_length := 0
    time_since_note := 0 }

/-- Helper for `bool as u8` casts. -/
def boolBit (b : Bool) : Nat := cond b 1 0

/-- sound.rs: `ChannelRegisters::read`.  Left shifts of `u8` values drop
shifted-out bits, hence the `% 256`; reads of registers other than 0-3
panic (`none`). -/
def read (regs : ChannelRegisters) (register : Nat) : Option Nat :=
  if register = 0x00 then
    some ((((regs.duty_cycle <<< 6) % 256) |||
      ((boolBit regs.looping <<< 5) % 256) |||
      ((boolBit regs.envelope <<< 4) % 256) |||
      regs.envelope_length % 256) % 256)
  else if register = 0x01 then
    some ((((boolBit regs.shift_enabled <<< 7) % 256) |||
      ((regs.shift_period <<< 4) % 256) |||
      ((boolBit regs.shift_reverse <<< 3) % 256) |||
      regs.shift_speed % 256) % 256)
  else if register = 0x02 then
    some (regs.period % 256)
  else if register = 0x03 then
    some (((regs.period >>> 8) % 256) ||| ((regs.note_length <<< 3) % 256))
  else
    none

/-- sound.rs: `ChannelRegisters::write`; writes to registers other than
0-3 panic (`none`).  Register 3 resets `time_since_note`. -/
def write (regs : ChannelRegisters) (register : Nat) (value : Nat) :
    Option ChannelRegisters :=
  if register = 0x00 then
    some { regs with
      duty_cycle := (value >>> 6) &&& 0x3
      looping := (value >>> 5) &&& 0x1 = 1
      envelope := (value >>> 4) &&& 0x1 = 1
      envelope_length := value &&& 0xF }
  else if register = 0x01 then
    some { regs with
      shift_enabled := (value >>> 7) &&& 0x1 = 1
      shift_period := (value >>> 4) &&& 0x7
      shift_reverse := (value >>> 3) &&& 0x1 = 1
      shift_speed := value &&& 0x7 }
  else if register = 0x02 then
    some { regs with period := (regs.period &&& 0x700) ||| value }
  else if register = 0x03 then
    some { regs with
      period := (regs.period &&& 0xFF) ||| ((value &&& 0x7) <<< 8)
      note_length := (value >>> 3) &&& 0x1F
      time_since_note := 0 }
  else
    none

/-- sound.rs: `ChannelRegisters::tick`. -/
def tick (regs : ChannelRegisters) (sample_rate : ℚ) : ChannelRegisters :=
  { regs with time_since_note := regs.time_since_note + 1 / sample_rate }

/-- sound.rs: `ChannelRegisters::get_effective_volume`.  In the envelope
branch the cycle length is `envelope_length / 15` seconds; when
`envelope_length = 0` the Rust `f64` arithmetic divides by zero
(`elapsed % 0.0 = NaN`, then `NaN / 0.0` and `1.0 - NaN`), so the result
is NaN, modelled as `none`. -/
def get_effective_volume (regs : ChannelRegisters) : Option ℚ :=
  if conversions.note_length_to_seconds regs.note_length < regs.time_since_note then
    some 0
  else if regs.envelope then
    let elapsed := regs.time_since_note
    let total := conversions.envelope_length_to_seconds regs.envelope_length
    (rustRem elapsed total).map (fun remainder => 1 - remainder / total)
  else
    some ((regs.envelope_length : ℚ) / CHANNEL_MAX_VOLUME)

/-- One iteration of the sweep loop body in
`ChannelRegisters::get_effective_period`.  The `u16` addition wraps
(release-profile semantics; a debug build would abort on overflow), the
subtraction cannot underflow since `p >>> n ≤ p`. -/
def sweepStep (reverse : Bool) (shift : Nat) (p : Nat) : Nat :=
  if reverse then p - (p >>> shift) else (p + (p >>> shift)) % 65536

/-- sound.rs: `ChannelRegisters::get_effective_period`. -/
def get_effective_period (regs : ChannelRegisters) : Nat :=
  let steps_since_shift := conversions.seconds_to_shift_steps regs.time_since_note
  if regs.shift_enabled then
    (sweepStep regs.shift_reverse regs.shift_period)^[steps_since_shift] regs.period
  else
    regs.period

end ChannelRegisters

/-- sound.rs: `struct SquareWave` (stateless). -/
structure SquareWave where

/-- sound.rs: `struct TriangleWave` (stateless). -/
structure TriangleWave where

/-- sound.rs: `struct Noise` (the 15-bit LFSR). -/
structure Noise where
  shift_register : Nat

namespace SquareWave

/-- sound.rs: `impl WaveGenerator for SquareWave`: duty-cycle comparator on
the phase; a duty cycle outside 0-3 panics, and a NaN volume propagates
(`none` in either case). -/
def generate (regs : ChannelRegisters) : Option ℚ :=
  let elapsed := regs.time_since_note
  let period := conversions.note_period_to_seconds regs.get_effective_period
  (rustRem elapsed period).bind (fun remainder =>
    let relative := remainder / period
    let value? : Option ℚ :=
      if regs.duty_cycle = 0x0 then some (if relative < 0.125 then 0 else 1)
      else if regs.duty_cycle = 0x1 then some (if relative < 0.25 then 0 else 1)
      else if regs.duty_cycle = 0x2 then some (if relative < 0.5 then 0 else 1)
      else if regs.duty_cycle = 0x3 then some (if relative < 0.75 then 0 else 1)
      else none
    value?.bind (fun value =>
      (regs.get_effective_volume).map (fun vol => value * vol)))

end SquareWave

namespace TriangleWave

/-- sound.rs: `impl WaveGenerator for TriangleWave`; a NaN volume
propagates (`none`). -/
def generate (regs : ChannelRegisters) : Option ℚ :=
  let elapsed := regs.time_since_note
  let period := conversions.note_period_to_seconds regs.get_effective_period
  (rustRem elapsed period).bind (fun remainder =>
    let relative := remainder / period
    let value := if relative < 0.5 then relative * 2 else (1 - relative) * 2
    (regs.get_effective_volume).map (fun vol => value * vol))

end TriangleWave

/-- The LFSR state update performed by `Noise::generate`: shift right one,
insert `bit0 XOR bit1` at bit 14. -/
def lfsrStep (s : Nat) : Nat :=
  (s >>> 1) ||| (((s &&& 0x1) ^^^ ((s >>> 1) &&& 0x1)) <<< 14)

namespace Noise

/-- sound.rs: `impl Default for Noise` (seed 1). -/
def default : Noise := { shift_register := 1 }

/-- sound.rs: `impl WaveGenerator for Noise`; the volume (with its
possible NaN) is only evaluated in the `feedback = 0` branch. -/
def generate (n : Noise) (regs : ChannelRegisters) : Noise × Option ℚ :=
  let feedback := (n.shift_register &&& 0x1) ^^^ ((n.shift_register >>> 1) &&& 0x1)
  ({ shift_register := (n.shift_register >>> 1) ||| (feedback <<< 14) },
   if feedback = 0 then (regs.get_effective_volume).map (fun vol => 1 * vol)
   else some 0)

end Noise

/-- sound.rs: `struct Channel<T>`. -/
structure Channel (G : Type) where
  registers : ChannelRegisters
  generator : G

/-- sound.rs: `struct SoundChip`. -/
structure SoundChip where
  square_wave_1 : Channel SquareWave
  square_wave_2 : Channel SquareWave
  triangle_wave : Channel TriangleWave
  noise : Channel Noise

namespace SoundChip

/-- sound.rs: `impl Default for SoundChip`. -/
def default : SoundChip :=
  { square_wave_1 := { registers := ChannelRegisters.default, generator := {} }
    square_wave_2 := { registers := ChannelRegisters.default, generator := {} }
    triangle_wave := { registers := ChannelRegisters.default, generator := {} }
    noise := { registers := ChannelRegisters.default, generator := Noise.default } }

/-- sound.rs: `SoundChip::read`; registers outside 0xA0-0xAF panic. -/
def read (chip : SoundChip) (register : Nat) : Option Nat :=
  if 0xA0 ≤ register ∧ register ≤ 0xA3 then
    chip.square_wave_1.registers.read (register - 0xA0)
  else if 0xA4 ≤ register ∧ register ≤ 0xA7 then
    chip.square_wave_2.registers.read (register - 0xA4)
  else if 0xA8 ≤ register ∧ register ≤ 0xAB then
    chip.triangle_wave.registers.read (register - 0xA8)
  else if 0xAC ≤ register ∧ register ≤ 0xAF then
    chip.noise.registers.read (register - 0xAC)
  else
    none

/-- sound.rs: `SoundChip::write`; registers outside 0xA0-0xAF panic. -/
def write (chip : SoundChip) (register : Nat) (value : Nat) : Option SoundChip :=
  if 0xA0 ≤ register ∧ register ≤ 0xA3 then
    (chip.square_wave_1.registers.write (register - 0xA0) value).map
      (fun r => { chip with square_wave_1 := { chip.square_wave_1 with registers := r } })
  else if 0xA4 ≤ register ∧ register ≤ 0xA7 then
    (chip.square_wave_2.registers.write (register - 0xA4) value).map
      (fun r => { chip with square_wave_2 := { chip.square_wave_2 with registers := r } })
  else if 0xA8 ≤ register ∧ register ≤ 0xAB then
    (chip.triangle_wave.registers.write (register - 0xA8) value).map
      (fun r => { chip with triangle_wave := { chip.triangle_wave with registers := r } })
  else if 0xAC ≤ register ∧ register ≤ 0xAF then
    (chip.noise.registers.write (register - 0xAC) value).map
      (fun r => { chip with noise := { chip.noise with registers := r } })
  else
    none

/-- sound.rs: `SoundChip::generate`: each `Channel::generate` first ticks
its registers and then runs its generator; the four outputs are mixed with
the fixed NES-APU linear-approximation weights.  Any NaN channel term
makes the whole `f32` sum NaN, so a `none` from any channel propagates. -/
def generate (chip : SoundChip) (sample_rate : ℚ) : Option (SoundChip × ℚ) :=
  let r1 := chip.square_wave_1.registers.tick sample_rate
  let r2 := chip.square_wave_2.registers.tick sample_rate
  let r3 := chip.triangle_wave.registers.tick sample_rate
  let r4 := chip.noise.registers.tick sample_rate
  do
    let v1 ← SquareWave.generate r1
    let v2 ← SquareWave.generate r2
    let v3 ← TriangleWave.generate r3
    let nv := chip.noise.generator.generate r4
    let v4 ← nv.2
    some ({ square_wave_1 := { registers := r1, generator := {} }
            square_wave_2 := { registers := r2, generator := {} }
            triangle_wave := { registers := r3, generator := {} }
            noise := { registers := r4, generator := nv.1 } },
      (0.00376 * 16) * v1 + (0.00376 * 16) * v2 +
        (0.00851 * 16) * v3 + (0.00494 * 16) * v4)

end SoundChip

/-- params.rs: the slice of `SixFiveParams` the core consumes: a bank
selector, four banks of 64 sixteen-bit words, and four trampoline flags. -/
structure SixFiveParams where
  rom_bank_select : Nat
  rom_banks : Nat → Nat → Nat
  trampoline_vectors : Nat → Bool

namespace SixFiveParams

/-- params.rs: `SixFiveParams::read_rom`: big-endian half selection of a
16-bit word (`as u8` casts modelled by `% 256`). -/
def read_rom (p : SixFiveParams) (address : Nat) : Nat :=
  let bank := p.rom_banks p.rom_bank_select
  if address &&& 0x1 = 0 then
    (bank (address / 2) >>> 8) % 256
  else
    bank (address / 2) % 256

/-- params.rs: `SixFiveParams::read_trampoline_vector`; addresses other
than 0xFC-0xFF panic. -/
def read_trampoline_vector (p : SixFiveParams) (address : Nat) : Option Nat :=
  if address = 0xFC then some (ChannelRegisters.boolBit (p.trampoline_vectors 0))
  else if address = 0xFD then some (ChannelRegisters.boolBit (p.trampoline_vectors 1))
  else if address = 0xFE then some (ChannelRegisters.boolBit (p.trampoline_vectors 2))
  else if address = 0xFF then some (ChannelRegisters.boolBit (p.trampoline_vectors 3))
  else none

end SixFiveParams

/-- cpu.rs: `struct Cpu`.  The 32-byte RAM is a function on indices
0-0x1F. -/
structure Cpu where
  accumulator : Nat
  instruction_pointer : Nat
  status_register : Bool × Bool
  clock_running : Bool
  beats_waiting : Nat
  cycles_waiting : Nat
  ram : Nat → Nat
  sound : SoundChip
  params : SixFiveParams

namespace Cpu

/-- cpu.rs: `Cpu::new`. -/
def new (params : SixFiveParams) : Cpu :=
  { accumulator := 0
    instruction_pointer := 0
    status_register := (false, false)
    clock_running := false
    beats_waiting := 0
    cycles_waiting := 0
    ram := fun _ => 0
    sound := SoundChip.default
    params := params }

/-- cpu.rs: `Cpu::reset`. -/
def reset (cpu : Cpu) : Cpu :=
  { cpu with
    instruction_pointer := 0
    accumulator := 0
    status_register := (false, false)
    ram := fun _ => 0
    sound := SoundChip.default }

/-- cpu.rs: `Cpu::set_status_register`, as the pair it stores. -/
def setStatus (value : Nat) : Bool × Bool :=
  (decide (value = 0), decide (value &&& 0x80 ≠ 0))

/-- cpu.rs: `Cpu::read`; reads of 0xB0-0xEF panic, and
`read_trampoline_vector` panics below 0xFC. -/
def read (cpu : Cpu) (address : Nat) : Option Nat :=
  if address ≤ 0x7F then some (cpu.params.read_rom address)
  else if address ≤ 0x9F then some (cpu.ram (address - 0x80))
  else if address ≤ 0xAF then cpu.sound.read address
  else if address ≤ 0xEF then none
  else cpu.params.read_trampoline_vector address

/-- cpu.rs: `Cpu::write`; only RAM (0x80-0x9F) and sound registers
(0xA0-0xAF) are writable, everything else panics. -/
def write (cpu : Cpu) (address : Nat) (value : Nat) : Option Cpu :=
  if address ≤ 0x7F then none
  else if address ≤ 0x9F then
    some { cpu with ram := fun i => if i = address - 0x80 then value else cpu.ram i }
  else if address ≤ 0xAF then
    (cpu.sound.write address value).map (fun chip => { cpu with sound := chip })
  else
    none

/-- The operand-resolution step of `Cpu::execute` (cpu.rs lines 85-99):
0xA0-0xAF forced immediate, 0xB0-0xBF forced absolute, otherwise bit 0 of
the opcode selects the mode. -/
def resolveOperand (cpu : Cpu) (opcode : Nat) : Option Nat :=
  if 0xA0 ≤ opcode ∧ opcode ≤ 0xAF then
    cpu.read ((cpu.instruction_pointer + 1) % 256)
  else if 0xB0 ≤ opcode ∧ opcode ≤ 0xBF then do
    let address ← cpu.read ((cpu.instruction_pointer + 1) % 256)
    cpu.read address
  else
    if opcode &&& 0x1 = 0 then
      cpu.read ((cpu.instruction_pointer + 1) % 256)
    else do
      let address ← cpu.read ((cpu.instruction_pointer + 1) % 256)
      cpu.read address

/-- The opcode dispatch of `Cpu::execute` (cpu.rs lines 109-271), applied
to the state whose instruction pointer has already been advanced.  The
shift operators mirror a debug build: a shift count of 8 or more aborts
(`none`); a release build would instead mask the count. -/
def executeOpcode (cpu : Cpu) (opcode : Nat) (operand : Nat) : Option Cpu :=
  if opcode = 0x00 ∨ opcode = 0x01 then
    some { cpu with clock_running := false }
  else if opcode = 0x10 ∨ opcode = 0x11 then
    some { cpu with accumulator := operand, status_register := setStatus operand }
  else if opcode = 0x12 ∨ opcode = 0x13 then
    (cpu.write operand cpu.accumulator).map
      (fun c => { c with status_register := setStatus c.accumulator })
  else if opcode = 0x20 ∨ opcode = 0x21 then
    some { cpu with accumulator := (cpu.accumulator + operand) % 256
                    status_register := setStatus ((cpu.accumulator + operand) % 256) }
  else if opcode = 0x22 ∨ opcode = 0x23 then
    some { cpu with status_register := setStatus operand }
  else if opcode = 0x24 ∨ opcode = 0x25 then
    some { cpu with status_register := setStatus cpu.accumulator }
  else if opcode = 0x26 ∨ opcode = 0x27 then
    some { cpu with status_register := setStatus ((cpu.accumulator + 256 - operand % 256) % 256) }
  else if opcode = 0x30 ∨ opcode = 0x31 then
    some (if cpu.status_register.1 then { cpu with instruction_pointer := operand } else cpu)
  else if opcode = 0x32 ∨ opcode = 0x33 then
    some (if ¬cpu.status_register.1 then { cpu with instruction_pointer := operand } else cpu)
  else if opcode = 0x34 ∨ opcode = 0x35 then
    some (if cpu.status_register.2 then { cpu with instruction_pointer := operand } else cpu)
  else if opcode = 0x36 ∨ opcode = 0x37 then
    some (if ¬cpu.status_register.2 then { cpu with instruction_pointer := operand } else cpu)
  else if opcode = 0x40 ∨ opcode = 0x41 then
    some { cpu with instruction_pointer := operand }
  else if opcode = 0x50 ∨ opcode = 0x51 then
    some { cpu with accumulator := cpu.accumulator &&& operand
                    status_register := setStatus (cpu.accumulator &&& operand) }
  else if opcode = 0x52 ∨ opcode = 0x53 then
    some { cpu with status_register := setStatus (cpu.accumulator &&& operand) }
  else if opcode = 0x54 ∨ opcode = 0x55 then
    some { cpu with accumulator := cpu.accumulator ||| operand
                    status_register := setStatus (cpu.accumulator ||| operand) }
  else if opcode = 0x56 ∨ opcode = 0x57 then
    some { cpu with accumulator := cpu.accumulator ^^^ operand
                    status_register := setStatus (cpu.accumulator ^^^ operand) }
  else if opcode = 0x58 ∨ opcode = 0x59 then
    if operand ≥ 8 then none
    else
      some { cpu with accumulator := (cpu.accumulator <<< operand) % 256
                      status_register := setStatus ((cpu.accumulator <<< operand) % 256) }
  else if opcode = 0x5A ∨ opcode = 0x5B then
    if operand ≥ 8 then none
    else
      some { cpu with accumulator := cpu.accumulator >>> operand
                      status_register := setStatus (cpu.accumulator >>> operand) }
  else if opcode = 0x5C ∨ opcode = 0x5D then
    some { cpu with
      accumulator := ((cpu.accumulator <<< (operand % 8)) ||| (cpu.accumulator >>> (8 - operand % 8))) % 256
      status_register := setStatus (((cpu.accumulator <<< (operand % 8)) ||| (cpu.accumulator >>> (8 - operand % 8))) % 256) }
  else if opcode = 0x5E ∨ opcode = 0x5F then
    some { cpu with
      accumulator := ((cpu.accumulator >>> (operand % 8)) ||| (cpu.accumulator <<< (8 - operand % 8))) % 256
      status_register := setStatus (((cpu.accumulator >>> (operand % 8)) ||| (cpu.accumulator <<< (8 - operand % 8))) % 256) }
  else if opcode = 0x60 ∨ opcode = 0x61 then
    (cpu.write operand 0).map
      (fun c => { c with status_register := setStatus 0 })
  else if opcode = 0x62 ∨ opcode = 0x63 then
    (cpu.read operand).bind (fun v =>
      (cpu.write operand ((v + 1) % 256)).bind (fun c =>
        some { c with status_register := setStatus ((v + 1) % 256) }))
  else if opcode = 0x64 ∨ opcode = 0x65 then
    (cpu.read operand).bind (fun v =>
      (cpu.write operand ((v + 256 - 1) % 256)).bind (fun c =>
        some { c with status_register := setStatus ((v + 256 - 1) % 256) }))
  else if 0xA0 ≤ opcode ∧ opcode ≤ 0xBF then
    (cpu.sound.write ((opcode &&& 0x0F) ||| 0xA0) operand).map
      (fun chip => { cpu with sound := chip })
  else if opcode = 0xF0 ∨ opcode = 0xF1 then
    some { cpu with beats_waiting := operand }
  else if opcode = 0xF2 ∨ opcode = 0xF3 then
    some { cpu with cycles_waiting := operand }
  else
    some { cpu with clock_running := false }

/-- cpu.rs: `Cpu::execute`: wait-counter gate, fetch, operand resolution,
instruction-pointer advance, then opcode dispatch. -/
def execute (cpu : Cpu) : Option Cpu :=
  if cpu.cycles_waiting > 0 then
    some { cpu with cycles_waiting := cpu.cycles_waiting - 1 }
  else do
    let opcode ← cpu.read cpu.instruction_pointer
    let operand ← resolveOperand cpu opcode
    executeOpcode
      { cpu with instruction_pointer := (cpu.instruction_pointer + 2) % 256 }
      opcode operand

end Cpu

/-! ### Concrete machines, iteration helpers, and invariants used by the theorems below -/

/-- A parameter block with all-zero ROM banks and cleared trampoline flags. -/
def zeroParams : SixFiveParams :=
  { rom_bank_select := 0
    rom_banks := fun _ _ => 0
    trampoline_vectors := fun _ => false }

/-- A parameter block whose selected ROM bank holds the single 16-bit word
`w0` at word index 0 (so ROM bytes 0 and 1 are its big-endian halves). -/
def romProgram (w0 : Nat) : SixFiveParams :=
  { rom_bank_select := 0
    rom_banks := fun _ w => if w = 0 then w0 else 0
    trampoline_vectors := fun _ => false }

/-- A machine about to run `STOR #0x00` (opcode 0x12, immediate operand
0x00): the instruction writes the accumulator to ROM address 0x00. -/
def storToRomCpu : Cpu :=
  { Cpu.new (romProgram 0x1200) with accumulator := 0x42, clock_running := true }

/-- A machine about to run `LSL #8` (opcode 0x58, immediate operand 8). -/
def lslOverflowCpu : Cpu :=
  { Cpu.new (romProgram 0x5808) with accumulator := 1, clock_running := true }

/-- A machine about to run `LSR #8` (opcode 0x5A, immediate operand 8). -/
def lsrOverflowCpu : Cpu :=
  { Cpu.new (romProgram 0x5A08) with accumulator := 1, clock_running := true }

/-- A machine about to run `SUB #0x05` (opcode 0x24) with accumulator
0x90. -/
def subProbeCpu : Cpu :=
  { Cpu.new (romProgram 0x2405) with accumulator := 0x90, clock_running := true }

/-- A machine about to run `ADD #0x02` (opcode 0x20) with accumulator
0xFF. -/
def addProbeCpu : Cpu :=
  { Cpu.new (romProgram 0x2002) with accumulator := 0xFF, clock_running := true }

/-- Iterating `lfsrStep` `n` times, structurally (kernel-friendly form of
`lfsrStep^[n]`). -/
def lfsrIter : Nat → Nat → Nat
  | 0, s => s
  | n + 1, s => lfsrIter n (lfsrStep s)

/-- Field bounds maintained by every reachable channel-register state:
`duty_cycle` and `envelope_length` are masked on write, and
`time_since_note` only ever accumulates nonnegative increments. -/
def RegsInv (regs : ChannelRegisters) : Prop :=
  regs.duty_cycle ≤ 3 ∧ regs.envelope_length ≤ 15 ∧ 0 ≤ regs.time_since_note

/-- `RegsInv` on all four channels. -/
def ChipInv (chip : SoundChip) : Prop :=
  RegsInv chip.square_wave_1.registers ∧ RegsInv chip.square_wave_2.registers ∧
    RegsInv chip.triangle_wave.registers ∧ RegsInv chip.noise.registers

/-- The sound-chip states reachable through its public interface: the
default state, register writes, and sample generation at a positive
sample rate. -/
inductive SoundChip.Reachable : SoundChip → Prop
  | init : SoundChip.Reachable SoundChip.default
  | write_step (chip chip2 : SoundChip) (register value : Nat) :
      SoundChip.Reachable chip → chip.write register value = some chip2 →
      SoundChip.Reachable chip2
  | generate_step (chip chip2 : SoundChip) (sample_rate out : ℚ) :
      SoundChip.Reachable chip → 0 < sample_rate →
      chip.generate sample_rate = some (chip2, out) → SoundChip.Reachable chip2

/-- The sound chip after writing 0x10 to register 0xA0 of the default
chip: square-channel-1 envelope enabled with `envelope_or_volume` 0. -/
def envZeroChipMid : SoundChip :=
  { SoundChip.default with
    square_wave_1 := { registers := { ChannelRegisters.default with envelope := true }, generator := {} } }

/-- The sound chip after additionally writing 0x08 to register 0xA3:
square channel 1 holds an active one-step note with envelope enabled and
`envelope_or_volume` 0 — the divide-by-zero envelope configuration. -/
def envZeroChip : SoundChip :=
  { SoundChip.default with
    square_wave_1 := { registers := { ChannelRegisters.default with envelope := true, note_length := 1 }, generator := {} } }

/-- The default channel registers advanced by one sample at 44100 Hz. -/
def tickedDefaultRegs : ChannelRegisters :=
  { ChannelRegisters.default with time_since_note := 0 + 1 / 44100 }

/-- The sound-chip state after one `generate` call on the default chip at
44100 Hz: every channel ticked once, the noise LFSR stepped from 1 to
0x4000. -/
def defaultGenChip : SoundChip :=
  { square_wave_1 := { registers := tickedDefaultRegs, generator := {} }
    square_wave_2 := { registers := tickedDefaultRegs, generator := {} }
    triangle_wave := { registers := tickedDefaultRegs, generator := {} }
    noise := { registers := tickedDefaultRegs, generator := { shift_register := 0x4000 } } }


set_option maxRecDepth 20000

/-! ### Bit-manipulation helper lemmas -/

lemma shiftRight_eq_zero_of_lt {x n : Nat} (h : x < 2 ^ n) : x >>> n = 0 := by
  simp [Nat.shiftRight_eq_div_pow, Nat.div_eq_of_lt h]

lemma lor_shiftRight (a b n : Nat) : (a ||| b) >>> n = (a >>> n) ||| (b >>> n) := by
  apply Nat.eq_of_testBit_eq
  intro i
  simp [Nat.testBit_shiftRight, Nat.testBit_or]

lemma shiftLeft_shiftRight_self (x n : Nat) : (x <<< n) >>> n = x := by
  apply Nat.eq_of_testBit_eq
  intro i
  simp [Nat.testBit_shiftRight, Nat.testBit_shiftLeft, Nat.le_add_right]

lemma lor_mod_256 {a v : Nat} (ha : a &&& 0xFF = 0) (hv : v < 256) :
    (a ||| v) % 256 = v := by
  apply Nat.eq_of_testBit_eq
  intro i
  rw [show (256 : ℕ) = 2 ^ 8 by norm_num, Nat.testBit_mod_two_pow]
  rcases lt_or_ge i 8 with hi | hi
  · have hmask : Nat.testBit 0xFF i = true := by
      interval_cases i <;> decide
    have ha2 : a.testBit i = false := by
      have h := congrArg (fun x => Nat.testBit x i) ha
      simp only [Nat.testBit_and, Nat.zero_testBit, Bool.and_eq_false_iff] at h
      rcases h with h | h
      · exact h
      · rw [hmask] at h; exact absurd h (by decide)
    simp [hi, Nat.testBit_or, ha2]
  · have hv2 : v.testBit i = false :=
      Nat.testBit_lt_two_pow (lt_of_lt_of_le hv (Nat.pow_le_pow_right (show 0 < 2 by norm_num) hi))
    have hni : ¬ i < 8 := by omega
    simp [hni, hv2]

/-! ### Claim C5: channel-register round trip -/

/-- C5: for every channel register index `r` in 0-3 and every byte `v`,
writing `v` to register `r` and reading `r` back yields exactly `v`
(the bit packing is a lossless round trip), and no register read depends
on `time_since_note`. -/
theorem register_roundtrip_lossless :
    (∀ (regs : ChannelRegisters) (r v : Nat), r < 4 → v < 256 →
      (regs.write r v).bind (fun regs2 => regs2.read r) = some v) ∧
    (∀ (regs : ChannelRegisters) (r : Nat) (t : ℚ),
      ChannelRegisters.read { regs with time_since_note := t } r = regs.read r) := by
  constructor
  · intro regs r v hr hv
    interval_cases r
    · simp [ChannelRegisters.write, ChannelRegisters.read]
      revert v
      decide
    · simp [ChannelRegisters.write, ChannelRegisters.read]
      revert v
      decide
    · simp [ChannelRegisters.write, ChannelRegisters.read]
      have ha : (regs.period &&& 0x700) &&& 0xFF = 0 := by
        rw [Nat.and_assoc, show ((0x700 : Nat) &&& 0xFF) = 0 by decide, Nat.and_zero]
      rw [lor_mod_256 ha hv]
    · simp [ChannelRegisters.write, ChannelRegisters.read]
      rw [lor_shiftRight, shiftRight_eq_zero_of_lt
          (Nat.and_lt_two_pow regs.period (by norm_num)),
        shiftLeft_shiftRight_self, Nat.zero_or]
      revert v
      decide
  · intro regs r t
    rfl

/-- Witness for C5 at a concrete register and byte. -/
theorem register_roundtrip_lossless_witness :
    (ChannelRegisters.default.write 3 0xAB).bind (fun regs2 => regs2.read 3) =
      some 0xAB :=
  register_roundtrip_lossless.1 ChannelRegisters.default 3 0xAB (by norm_num)
    (by norm_num)

/-! ### Claim C9: `time_since_note` reset discipline -/

/-- C9: writing sub-register 3 (the note-length register) resets
`time_since_note` to 0, and writing sub-registers 0, 1 or 2 leaves it
unchanged. -/
theorem time_since_note_reset_exactly_on_note_write :
    (∀ (regs : ChannelRegisters) (v : Nat),
      (regs.write 3 v).map (fun regs2 => regs2.time_since_note) = some 0) ∧
    (∀ (regs : ChannelRegisters) (r v : Nat), r < 3 →
      (regs.write r v).map (fun regs2 => regs2.time_since_note) =
        some regs.time_since_note) := by
  constructor
  · intro regs v
    rfl
  · intro regs r v hr
    interval_cases r <;> rfl

/-- Witness for C9 at concrete registers. -/
theorem time_since_note_reset_witness :
    (ChannelRegisters.default.write 2 0x55).map
      (fun regs2 => regs2.time_since_note) =
      some ChannelRegisters.default.time_since_note :=
  time_since_note_reset_exactly_on_note_write.2 ChannelRegisters.default 2 0x55
    (by norm_num)

/-! ### Concrete machines used by counterexamples and witnesses -/

/-! ### Claim C10: what `reset` clears and what it keeps -/

/-- C10 counterexample: `reset` does not zero the noise LFSR; it re-seeds
it to 1 (the `Noise` default), so the claim that reset zeroes all
sound-chip channel/LFSR state is false. -/
theorem reset_does_not_zero_lfsr :
    (Cpu.reset (Cpu.new zeroParams)).sound.noise.generator.shift_register ≠ 0 := by
  decide

/-- C10 (amended): `reset` zeroes the accumulator, instruction pointer,
status register and RAM, restores the sound chip to its power-on default
(channel registers cleared, noise LFSR re-seeded to 1), and leaves
`clock_running`, `beats_waiting` and `cycles_waiting` unchanged — in
particular a pending NOOP stall (`cycles_waiting > 0`) survives a reset. -/
theorem reset_zeroes_cpu_and_restores_sound_defaults (cpu : Cpu) :
    cpu.reset.accumulator = 0 ∧
    cpu.reset.instruction_pointer = 0 ∧
    cpu.reset.status_register = (false, false) ∧
    (∀ i, cpu.reset.ram i = 0) ∧
    cpu.reset.sound = SoundChip.default ∧
    cpu.reset.sound.noise.generator.shift_register = 1 ∧
    cpu.reset.clock_running = cpu.clock_running ∧
    cpu.reset.beats_waiting = cpu.beats_waiting ∧
    cpu.reset.cycles_waiting = cpu.cycles_waiting :=
  ⟨rfl, rfl, rfl, fun _ => rfl, rfl, rfl, rfl, rfl, rfl⟩

/-! ### Claim C1: illegal memory accesses -/

/-- C1 counterexample: an illegal write during `execute()` is a Rust
`panic!` (modelled `none`), so no post-state with `clock_running = false`
exists; the claim that a `MemoryFault` halts the clock without panicking
is false on this code. -/
theorem illegal_write_panics_instead_of_halting :
    Cpu.execute storToRomCpu = none := rfl

/-- C1 (amended): every write to 0x00-0x7F (ROM), 0xB0-0xEF
(unimplemented) or 0xF0-0xFF (trampoline), and every read of 0xB0-0xEF,
is a defined fault that aborts the instruction stream (a Rust panic,
`none`), never a silent ignore; the code does not set
`clock_running := false` on these faults (that halt applies only to
unimplemented opcodes). -/
theorem illegal_access_is_fault (cpu : Cpu) (addr v : Nat)
    (h : addr < 0x80 ∨ 0xB0 ≤ addr) :
    cpu.write addr v = none ∧
      (0xB0 ≤ addr → addr ≤ 0xEF → cpu.read addr = none) := by
  constructor
  · unfold Cpu.write
    rcases h with h | h
    · rw [if_pos (by omega)]
    · rw [if_neg (by omega), if_neg (by omega), if_neg (by omega)]
  · intro h1 h2
    unfold Cpu.read
    rw [if_neg (by omega), if_neg (by omega), if_neg (by omega), if_pos (by omega)]

/-- Witness for the amended C1 at a concrete illegal address. -/
theorem illegal_access_is_fault_witness :
    Cpu.write (Cpu.new zeroParams) 0xB0 0x12 = none ∧
      (0xB0 ≤ 0xB0 → 0xB0 ≤ 0xEF → Cpu.read (Cpu.new zeroParams) 0xB0 = none) :=
  illegal_access_is_fault (Cpu.new zeroParams) 0xB0 0x12 (Or.inr (by norm_num))

/-! ### Claim C7: shift-count overflow -/

/-- C7 (code bug): `A << operand` / `A >> operand` with a shift count of 8
or more is not a documented saturation or fault: a debug build aborts
(modelled `none`; a release build would silently mask the count), which is
exactly the implementation-defined overflow behavior the specification
forbids. -/
theorem shift_count_overflow_aborts :
    Cpu.execute lslOverflowCpu = none ∧ Cpu.execute lsrOverflowCpu = none :=
  ⟨rfl, rfl⟩

/-! ### Claim C2: SUB performs no subtraction -/

/-- C2: with no pending stall, executing opcode 0x24 or 0x25 (SUB) only
advances the instruction pointer and sets the status register from the
current accumulator (`zero = (A = 0)`, `negative = (A &&& 0x80 ≠ 0)`);
the accumulator — and everything else — is left unchanged, so no
subtraction is performed. -/
theorem sub_statuses_accumulator_without_subtracting
    (cpu : Cpu) (opcode w : Nat)
    (h0 : cpu.cycles_waiting = 0)
    (hop : opcode = 0x24 ∨ opcode = 0x25)
    (hfetch : cpu.read cpu.instruction_pointer = some opcode)
    (hoperand : cpu.resolveOperand opcode = some w) :
    cpu.execute = some { cpu with
      instruction_pointer := (cpu.instruction_pointer + 2) % 256
      status_register :=
        (decide (cpu.accumulator = 0), decide (cpu.accumulator &&& 0x80 ≠ 0)) } := by
  rcases hop with h | h <;> subst h <;>
    simp [Cpu.execute, h0, hfetch, hoperand, Cpu.executeOpcode, Cpu.setStatus]

/-- Witness for C2 on a concrete machine. -/
theorem sub_statuses_accumulator_witness :
    Cpu.execute subProbeCpu = some { subProbeCpu with
      instruction_pointer := (subProbeCpu.instruction_pointer + 2) % 256
      status_register :=
        (decide (subProbeCpu.accumulator = 0),
         decide (subProbeCpu.accumulator &&& 0x80 ≠ 0)) } :=
  sub_statuses_accumulator_without_subtracting subProbeCpu 0x24 0x05 rfl
    (Or.inl rfl) rfl rfl

/-! ### Claim C3: addressing-mode dispatch -/

/-- C3: operand resolution follows the addressing-mode rule: opcodes
0xA0-0xAF are forced immediate (operand is the literal byte at `ip+1`),
opcodes 0xB0-0xBF are forced absolute (`read(read(ip+1))`), and for all
other opcodes bit 0 selects the mode: 0 immediate, 1 absolute. -/
theorem operand_resolution_rule (cpu : Cpu) (opcode : Nat) :
    (0xA0 ≤ opcode ∧ opcode ≤ 0xAF →
      cpu.resolveOperand opcode =
        cpu.read ((cpu.instruction_pointer + 1) % 256)) ∧
    (0xB0 ≤ opcode ∧ opcode ≤ 0xBF →
      cpu.resolveOperand opcode =
        (cpu.read ((cpu.instruction_pointer + 1) % 256)).bind
          (fun address => cpu.read address)) ∧
    (opcode < 0xA0 ∨ 0xC0 ≤ opcode → opcode &&& 0x1 = 0 →
      cpu.resolveOperand opcode =
        cpu.read ((cpu.instruction_pointer + 1) % 256)) ∧
    (opcode < 0xA0 ∨ 0xC0 ≤ opcode → opcode &&& 0x1 = 1 →
      cpu.resolveOperand opcode =
        (cpu.read ((cpu.instruction_pointer + 1) % 256)).bind
          (fun address => cpu.read address)) := by
  refine ⟨fun h => ?_, fun h => ?_, fun h hbit => ?_, fun h hbit => ?_⟩ <;>
    unfold Cpu.resolveOperand
  · rw [if_pos h]
  · rw [if_neg (by omega), if_pos h]; rfl
  · rw [if_neg (by omega), if_neg (by omega), if_pos hbit]
  · rw [if_neg (by omega), if_neg (by omega), if_neg (by simp [hbit])]; rfl

/-- Witness for C3 on a forced-immediate opcode. -/
theorem operand_resolution_rule_witness :
    Cpu.resolveOperand (Cpu.new zeroParams) 0xA5 =
      Cpu.read (Cpu.new zeroParams)
        (((Cpu.new zeroParams).instruction_pointer + 1) % 256) :=
  (operand_resolution_rule (Cpu.new zeroParams) 0xA5).1 ⟨by norm_num, by norm_num⟩

/-! ### Claim C4: the instruction pointer advances by exactly 2 -/

lemma write_preserves_ip {cpu c : Cpu} {a v : Nat} (h : cpu.write a v = some c) :
    c.instruction_pointer = cpu.instruction_pointer := by
  unfold Cpu.write at h
  split_ifs at h
  · rw [Option.some.injEq] at h
    subst h
    rfl
  · rcases Option.map_eq_some'.mp h with ⟨chip, _, hc⟩
    subst hc
    rfl

lemma executeOpcode_preserves_ip {cpu c : Cpu} {op w : Nat}
    (hjmp : op ≠ 0x40 ∧ op ≠ 0x41)
    (hbreq : ¬((op = 0x30 ∨ op = 0x31) ∧ cpu.status_register.1))
    (hbrne : ¬((op = 0x32 ∨ op = 0x33) ∧ ¬cpu.status_register.1))
    (hbrlt : ¬((op = 0x34 ∨ op = 0x35) ∧ cpu.status_register.2))
    (hbrge : ¬((op = 0x36 ∨ op = 0x37) ∧ ¬cpu.status_register.2))
    (h : Cpu.executeOpcode cpu op w = some c) :
    c.instruction_pointer = cpu.instruction_pointer := by
  unfold Cpu.executeOpcode at h
  by_cases h1 : op = 0x00 ∨ op = 0x01
  · rw [if_pos h1, Option.some.injEq] at h
    subst h
    rfl
  rw [if_neg h1] at h
  by_cases h2 : op = 0x10 ∨ op = 0x11
  · rw [if_pos h2, Option.some.injEq] at h
    subst h
    rfl
  rw [if_neg h2] at h
  by_cases h3 : op = 0x12 ∨ op = 0x13
  · rw [if_pos h3] at h
    rcases Option.map_eq_some'.mp h with ⟨x, hx, hc⟩
    subst hc
    have hx2 := write_preserves_ip hx
    simpa using hx2
  rw [if_neg h3] at h
  by_cases h4 : op = 0x20 ∨ op = 0x21
  · rw [if_pos h4, Option.some.injEq] at h
    subst h
    rfl
  rw [if_neg h4] at h
  by_cases h5 : op = 0x22 ∨ op = 0x23
  · rw [if_pos h5, Option.some.injEq] at h
    subst h
    rfl
  rw [if_neg h5] at h
  by_cases h6 : op = 0x24 ∨ op = 0x25
  · rw [if_pos h6, Option.some.injEq] at h
    subst h
    rfl
  rw [if_neg h6] at h
  by_cases h7 : op = 0x26 ∨ op = 0x27
  · rw [if_pos h7, Option.some.injEq] at h
    subst h
    rfl
  rw [if_neg h7] at h
  by_cases h8 : op = 0x30 ∨ op = 0x31
  · rw [if_pos h8, Option.some.injEq] at h
    by_cases hc : cpu.status_register.1
    · exact absurd ⟨h8, hc⟩ hbreq
    · rw [if_neg hc] at h
      subst h
      rfl
  rw [if_neg h8] at h
  by_cases h9 : op = 0x32 ∨ op = 0x33
  · rw [if_pos h9, Option.some.injEq] at h
    by_cases hc : cpu.status_register.1
    · rw [if_neg (by simp [hc])] at h
      subst h
      rfl
    · exact absurd ⟨h9, hc⟩ hbrne
  rw [if_neg h9] at h
  by_cases h10 : op = 0x34 ∨ op = 0x35
  · rw [if_pos h10, Option.some.injEq] at h
    by_cases hc : cpu.status_register.2
    · exact absurd ⟨h10, hc⟩ hbrlt
    · rw [if_neg hc] at h
      subst h
      rfl
  rw [if_neg h10] at h
  by_cases h11 : op = 0x36 ∨ op = 0x37
  · rw [if_pos h11, Option.some.injEq] at h
    by_cases hc : cpu.status_register.2
    · rw [if_neg (by simp [hc])] at h
      subst h
      rfl
    · exact absurd ⟨h11, hc⟩ hbrge
  rw [if_neg h11] at h
  by_cases h12 : op = 0x40 ∨ op = 0x41
  · rcases h12 with h13 | h13
    · exact absurd h13 hjmp.1
    · exact absurd h13 hjmp.2
  rw [if_neg h12] at h
  by_cases h14 : op = 0x50 ∨ op = 0x51
  · rw [if_pos h14, Option.some.injEq] at h
    subst h
    rfl
  rw [if_neg h14] at h
  by_cases h15 : op = 0x52 ∨ op = 0x53
  · rw [if_pos h15, Option.some.injEq] at h
    subst h
    rfl
  rw [if_neg h15] at h
  by_cases h16 : op = 0x54 ∨ op = 0x55
  · rw [if_pos h16, Option.some.injEq] at h
    subst h
    rfl
  rw [if_neg h16] at h
  by_cases h17 : op = 0x56 ∨ op = 0x57
  · rw [if_pos h17, Option.some.injEq] at h
    subst h
    rfl
  rw [if_neg h17] at h
  by_cases h18 : op = 0x58 ∨ op = 0x59
  · rw [if_pos h18] at h
    by_cases hs : w ≥ 8
    · rw [if_pos hs] at h
      exact absurd h (by simp)
    · rw [if_neg hs, Option.some.injEq] at h
      subst h
      rfl
  rw [if_neg h18] at h
  by_cases h19 : op = 0x5A ∨ op = 0x5B
  · rw [if_pos h19] at h
    by_cases hs : w ≥ 8
    · rw [if_pos hs] at h
      exact absurd h (by simp)
    · rw [if_neg hs, Option.some.injEq] at h
      subst h
      rfl
  rw [if_neg h19] at h
  by_cases h20 : op = 0x5C ∨ op = 0x5D
  · rw [if_pos h20, Option.some.injEq] at h
    subst h
    rfl
  rw [if_neg h20] at h
  by_cases h21 : op = 0x5E ∨ op = 0x5F
  · rw [if_pos h21, Option.some.injEq] at h
    subst h
    rfl
  rw [if_neg h21] at h
  by_cases h22 : op = 0x60 ∨ op = 0x61
  · rw [if_pos h22] at h
    rcases Option.map_eq_some'.mp h with ⟨x, hx, hc⟩
    subst hc
    have hx2 := write_preserves_ip hx
    simpa using hx2
  rw [if_neg h22] at h
  by_cases h23 : op = 0x62 ∨ op = 0x63
  · rw [if_pos h23] at h
    rcases Option.bind_eq_some.mp h with ⟨x, hx, h2⟩
    rcases Option.bind_eq_some.mp h2 with ⟨c1, hw, h3⟩
    rw [Option.some.injEq] at h3
    subst h3
    have hw2 := write_preserves_ip hw
    simpa using hw2
  rw [if_neg h23] at h
  by_cases h24 : op = 0x64 ∨ op = 0x65
  · rw [if_pos h24] at h
    rcases Option.bind_eq_some.mp h with ⟨x, hx, h2⟩
    rcases Option.bind_eq_some.mp h2 with ⟨c1, hw, h3⟩
    rw [Option.some.injEq] at h3
    subst h3
    have hw2 := write_preserves_ip hw
    simpa using hw2
  rw [if_neg h24] at h
  by_cases h25 : 0xA0 ≤ op ∧ op ≤ 0xBF
  · rw [if_pos h25] at h
    rcases Option.map_eq_some'.mp h with ⟨x, hx, hc⟩
    subst hc
    rfl
  rw [if_neg h25] at h
  by_cases h26 : op = 0xF0 ∨ op = 0xF1
  · rw [if_pos h26, Option.some.injEq] at h
    subst h
    rfl
  rw [if_neg h26] at h
  by_cases h27 : op = 0xF2 ∨ op = 0xF3
  · rw [if_pos h27, Option.some.injEq] at h
    subst h
    rfl
  rw [if_neg h27] at h
  rw [Option.some.injEq] at h
  subst h
  rfl

/-- C4: with no pending stall, whenever `execute()` completes and the
fetched opcode is neither JMP nor a taken branch (a BREQ/BRNE/BRLT/BRGE
whose condition holds), the instruction pointer of the resulting state is
exactly the old one plus 2, modulo 256, regardless of the opcode's data
effect. -/
theorem ip_advances_by_two (cpu c : Cpu) (opcode w : Nat)
    (h0 : cpu.cycles_waiting = 0)
    (hfetch : cpu.read cpu.instruction_pointer = some opcode)
    (hoperand : cpu.resolveOperand opcode = some w)
    (hjmp : opcode ≠ 0x40 ∧ opcode ≠ 0x41)
    (hbreq : ¬((opcode = 0x30 ∨ opcode = 0x31) ∧ cpu.status_register.1))
    (hbrne : ¬((opcode = 0x32 ∨ opcode = 0x33) ∧ ¬cpu.status_register.1))
    (hbrlt : ¬((opcode = 0x34 ∨ opcode = 0x35) ∧ cpu.status_register.2))
    (hbrge : ¬((opcode = 0x36 ∨ opcode = 0x37) ∧ ¬cpu.status_register.2))
    (hex : cpu.execute = some c) :
    c.instruction_pointer = (cpu.instruction_pointer + 2) % 256 := by
  unfold Cpu.execute at hex
  rw [if_neg (by omega), hfetch] at hex
  simp only [Option.bind_eq_bind, Option.some_bind, hoperand] at hex
  exact @executeOpcode_preserves_ip
    { cpu with instruction_pointer := (cpu.instruction_pointer + 2) % 256 } c opcode w
    hjmp hbreq hbrne hbrlt hbrge hex

/-- Witness for C4 on a concrete machine running ADD. -/
theorem ip_advances_by_two_witness :
    ∃ c, Cpu.execute addProbeCpu = some c ∧
      c.instruction_pointer = (addProbeCpu.instruction_pointer + 2) % 256 := by
  have hex : Cpu.execute addProbeCpu = some { addProbeCpu with
      instruction_pointer := 2
      accumulator := 1
      status_register := (false, false) } := rfl
  exact ⟨_, hex, ip_advances_by_two addProbeCpu _ 0x20 0x02 rfl rfl rfl
    (by norm_num) (by norm_num) (by norm_num) (by norm_num) (by norm_num) hex⟩

/-! ### Claim C6: the noise LFSR -/

lemma lfsrIter_add (m n s : Nat) : lfsrIter (m + n) s = lfsrIter m (lfsrIter n s) := by
  induction n generalizing s with
  | zero => rfl
  | succ k ih =>
    rw [Nat.add_succ]
    rw [show lfsrIter (m + k).succ s = lfsrIter (m + k) (lfsrStep s) from rfl]
    rw [ih]
    rfl

lemma lfsrIter_eq_iterate (n s : Nat) : lfsrIter n s = lfsrStep^[n] s := by
  induction n generalizing s with
  | zero => rfl
  | succ k ih =>
    rw [show lfsrIter (k + 1) s = lfsrIter k (lfsrStep s) from rfl, ih,
      Function.iterate_succ_apply]

lemma lfsrIterChunk1 : lfsrIter 512 1 = 8320 := by decide

lemma lfsrIterChunk2 : lfsrIter 1024 1 = 26624 := by
  rw [show (1024 : ℕ) = 512 + 512 from by norm_num, lfsrIter_add, lfsrIterChunk1]
  decide

lemma lfsrIterChunk3 : lfsrIter 1536 1 = 6760 := by
  rw [show (1536 : ℕ) = 512 + 1024 from by norm_num, lfsrIter_add, lfsrIterChunk2]
  decide

lemma lfsrIterChunk4 : lfsrIter 2048 1 = 10368 := by
  rw [show (2048 : ℕ) = 512 + 1536 from by norm_num, lfsrIter_add, lfsrIterChunk3]
  decide

lemma lfsrIterChunk5 : lfsrIter 2560 1 = 27144 := by
  rw [show (2560 : ℕ) = 512 + 2048 from by norm_num, lfsrIter_add, lfsrIterChunk4]
  decide

lemma lfsrIterChunk6 : lfsrIter 3072 1 = 7400 := by
  rw [show (3072 : ℕ) = 512 + 2560 from by norm_num, lfsrIter_add, lfsrIterChunk5]
  decide

lemma lfsrIterChunk7 : lfsrIter 3584 1 = 18726 := by
  rw [show (3584 : ℕ) = 512 + 3072 from by norm_num, lfsrIter_add, lfsrIterChunk6]
  decide

lemma lfsrIterChunk8 : lfsrIter 4096 1 = 26752 := by
  rw [show (4096 : ℕ) = 512 + 3584 from by norm_num, lfsrIter_add, lfsrIterChunk7]
  decide

lemma lfsrIterChunk9 : lfsrIter 4608 1 = 31304 := by
  rw [show (4608 : ℕ) = 512 + 4096 from by norm_num, lfsrIter_add, lfsrIterChunk8]
  decide

lemma lfsrIterChunk10 : lfsrIter 5120 1 = 10472 := by
  rw [show (5120 : ℕ) = 512 + 4608 from by norm_num, lfsrIter_add, lfsrIterChunk9]
  decide

lemma lfsrIterChunk11 : lfsrIter 5632 1 = 17426 := by
  rw [show (5632 : ℕ) = 512 + 5120 from by norm_num, lfsrIter_add, lfsrIterChunk10]
  decide

lemma lfsrIterChunk12 : lfsrIter 6144 1 = 31936 := by
  rw [show (6144 : ℕ) = 512 + 5632 from by norm_num, lfsrIter_add, lfsrIterChunk11]
  decide

lemma lfsrIterChunk13 : lfsrIter 6656 1 = 20300 := by
  rw [show (6656 : ℕ) = 512 + 6144 from by norm_num, lfsrIter_add, lfsrIterChunk12]
  decide

lemma lfsrIterChunk14 : lfsrIter 7168 1 = 9884 := by
  rw [show (7168 : ℕ) = 512 + 6656 from by norm_num, lfsrIter_add, lfsrIterChunk13]
  decide

lemma lfsrIterChunk15 : lfsrIter 7680 1 = 8321 := by
  rw [show (7680 : ℕ) = 512 + 7168 from by norm_num, lfsrIter_add, lfsrIterChunk14]
  decide

lemma lfsrIterChunk16 : lfsrIter 8192 1 = 18560 := by
  rw [show (8192 : ℕ) = 512 + 7680 from by norm_num, lfsrIter_add, lfsrIterChunk15]
  decide

lemma lfsrIterChunk17 : lfsrIter 8704 1 = 29288 := by
  rw [show (8704 : ℕ) = 512 + 8192 from by norm_num, lfsrIter_add, lfsrIterChunk16]
  decide

lemma lfsrIterChunk18 : lfsrIter 9216 1 = 13032 := by
  rw [show (9216 : ℕ) = 512 + 8704 from by norm_num, lfsrIter_add, lfsrIterChunk17]
  decide

lemma lfsrIterChunk19 : lfsrIter 9728 1 = 17032 := by
  rw [show (9728 : ℕ) = 512 + 9216 from by norm_num, lfsrIter_add, lfsrIterChunk18]
  decide

lemma lfsrIterChunk20 : lfsrIter 10240 1 = 30432 := by
  rw [show (10240 : ℕ) = 512 + 9728 from by norm_num, lfsrIter_add, lfsrIterChunk19]
  decide

lemma lfsrIterChunk21 : lfsrIter 10752 1 = 21966 := by
  rw [show (10752 : ℕ) = 512 + 10240 from by norm_num, lfsrIter_add, lfsrIterChunk20]
  decide

lemma lfsrIterChunk22 : lfsrIter 11264 1 = 8614 := by
  rw [show (11264 : ℕ) = 512 + 10752 from by norm_num, lfsrIter_add, lfsrIterChunk21]
  decide

lemma lfsrIterChunk23 : lfsrIter 11776 1 = 4808 := by
  rw [show (11776 : ℕ) = 512 + 11264 from by norm_num, lfsrIter_add, lfsrIterChunk22]
  decide

lemma lfsrIterChunk24 : lfsrIter 12288 1 = 21152 := by
  rw [show (12288 : ℕ) = 512 + 11776 from by norm_num, lfsrIter_add, lfsrIterChunk23]
  decide

lemma lfsrIterChunk25 : lfsrIter 12800 1 = 27898 := by
  rw [show (12800 : ℕ) = 512 + 12288 from by norm_num, lfsrIter_add, lfsrIterChunk24]
  decide

lemma lfsrIterChunk26 : lfsrIter 13312 1 = 14546 := by
  rw [show (13312 : ℕ) = 512 + 12800 from by norm_num, lfsrIter_add, lfsrIterChunk25]
  decide

lemma lfsrIterChunk27 : lfsrIter 13824 1 = 13196 := by
  rw [show (13824 : ℕ) = 512 + 13312 from by norm_num, lfsrIter_add, lfsrIterChunk26]
  decide

lemma lfsrIterChunk28 : lfsrIter 14336 1 = 27088 := by
  rw [show (14336 : ℕ) = 512 + 13824 from by norm_num, lfsrIter_add, lfsrIterChunk27]
  decide

lemma lfsrIterChunk29 : lfsrIter 14848 1 = 1565 := by
  rw [show (14848 : ℕ) = 512 + 14336 from by norm_num, lfsrIter_add, lfsrIterChunk28]
  decide

lemma lfsrIterChunk30 : lfsrIter 15360 1 = 26625 := by
  rw [show (15360 : ℕ) = 512 + 14848 from by norm_num, lfsrIter_add, lfsrIterChunk29]
  decide

lemma lfsrIterChunk31 : lfsrIter 15872 1 = 15080 := by
  rw [show (15872 : ℕ) = 512 + 15360 from by norm_num, lfsrIter_add, lfsrIterChunk30]
  decide

lemma lfsrIterChunk32 : lfsrIter 16384 1 = 16512 := by
  rw [show (16384 : ℕ) = 512 + 15872 from by norm_num, lfsrIter_add, lfsrIterChunk31]
  decide

lemma lfsrIterChunk33 : lfsrIter 16896 1 = 28768 := by
  rw [show (16896 : ℕ) = 512 + 16384 from by norm_num, lfsrIter_add, lfsrIterChunk32]
  decide

lemma lfsrIterChunk34 : lfsrIter 17408 1 = 13416 := by
  rw [show (17408 : ℕ) = 512 + 16896 from by norm_num, lfsrIter_add, lfsrIterChunk33]
  decide

lemma lfsrIterChunk35 : lfsrIter 17920 1 = 9006 := by
  rw [show (17920 : ℕ) = 512 + 17408 from by norm_num, lfsrIter_add, lfsrIterChunk34]
  decide

lemma lfsrIterChunk36 : lfsrIter 18432 1 = 29800 := by
  rw [show (18432 : ℕ) = 512 + 17920 from by norm_num, lfsrIter_add, lfsrIterChunk35]
  decide

lemma lfsrIterChunk37 : lfsrIter 18944 1 = 13166 := by
  rw [show (18944 : ℕ) = 512 + 18432 from by norm_num, lfsrIter_add, lfsrIterChunk36]
  decide

lemma lfsrIterChunk38 : lfsrIter 19456 1 = 16488 := by
  rw [show (19456 : ℕ) = 512 + 18944 from by norm_num, lfsrIter_add, lfsrIterChunk37]
  decide

lemma lfsrIterChunk39 : lfsrIter 19968 1 = 15962 := by
  rw [show (19968 : ℕ) = 512 + 19456 from by norm_num, lfsrIter_add, lfsrIterChunk38]
  decide

lemma lfsrIterChunk40 : lfsrIter 20480 1 = 21544 := by
  rw [show (20480 : ℕ) = 512 + 19968 from by norm_num, lfsrIter_add, lfsrIterChunk39]
  decide

lemma lfsrIterChunk41 : lfsrIter 20992 1 = 2910 := by
  rw [show (20992 : ℕ) = 512 + 20480 from by norm_num, lfsrIter_add, lfsrIterChunk40]
  decide

lemma lfsrIterChunk42 : lfsrIter 21504 1 = 23132 := by
  rw [show (21504 : ℕ) = 512 + 20992 from by norm_num, lfsrIter_add, lfsrIterChunk41]
  decide

lemma lfsrIterChunk43 : lfsrIter 22016 1 = 28621 := by
  rw [show (22016 : ℕ) = 512 + 21504 from by norm_num, lfsrIter_add, lfsrIterChunk42]
  decide

lemma lfsrIterChunk44 : lfsrIter 22528 1 = 28188 := by
  rw [show (22528 : ℕ) = 512 + 22016 from by norm_num, lfsrIter_add, lfsrIterChunk43]
  decide

lemma lfsrIterChunk45 : lfsrIter 23040 1 = 21225 := by
  rw [show (23040 : ℕ) = 512 + 22528 from by norm_num, lfsrIter_add, lfsrIterChunk44]
  decide

lemma lfsrIterChunk46 : lfsrIter 23552 1 = 31336 := by
  rw [show (23552 : ℕ) = 512 + 23040 from by norm_num, lfsrIter_add, lfsrIterChunk45]
  decide

lemma lfsrIterChunk47 : lfsrIter 24064 1 = 12512 := by
  rw [show (24064 : ℕ) = 512 + 23552 from by norm_num, lfsrIter_add, lfsrIterChunk46]
  decide

lemma lfsrIterChunk48 : lfsrIter 24576 1 = 17416 := by
  rw [show (24576 : ℕ) = 512 + 24064 from by norm_num, lfsrIter_add, lfsrIterChunk47]
  decide

lemma lfsrIterChunk49 : lfsrIter 25088 1 = 5958 := by
  rw [show (25088 : ℕ) = 512 + 24576 from by norm_num, lfsrIter_add, lfsrIterChunk48]
  decide

lemma lfsrIterChunk50 : lfsrIter 25600 1 = 22342 := by
  rw [show (25600 : ℕ) = 512 + 25088 from by norm_num, lfsrIter_add, lfsrIterChunk49]
  decide

lemma lfsrIterChunk51 : lfsrIter 26112 1 = 18182 := by
  rw [show (26112 : ℕ) = 512 + 25600 from by norm_num, lfsrIter_add, lfsrIterChunk50]
  decide

lemma lfsrIterChunk52 : lfsrIter 26624 1 = 29446 := by
  rw [show (26624 : ℕ) = 512 + 26112 from by norm_num, lfsrIter_add, lfsrIterChunk51]
  decide

lemma lfsrIterChunk53 : lfsrIter 27136 1 = 32306 := by
  rw [show (27136 : ℕ) = 512 + 26624 from by norm_num, lfsrIter_add, lfsrIterChunk52]
  decide

lemma lfsrIterChunk54 : lfsrIter 27648 1 = 27250 := by
  rw [show (27648 : ℕ) = 512 + 27136 from by norm_num, lfsrIter_add, lfsrIterChunk53]
  decide

lemma lfsrIterChunk55 : lfsrIter 28160 1 = 24438 := by
  rw [show (28160 : ℕ) = 512 + 27648 from by norm_num, lfsrIter_add, lfsrIterChunk54]
  decide

lemma lfsrIterChunk56 : lfsrIter 28672 1 = 20738 := by
  rw [show (28672 : ℕ) = 512 + 28160 from by norm_num, lfsrIter_add, lfsrIterChunk55]
  decide

lemma lfsrIterChunk57 : lfsrIter 29184 1 = 13713 := by
  rw [show (29184 : ℕ) = 512 + 28672 from by norm_num, lfsrIter_add, lfsrIterChunk56]
  decide

lemma lfsrIterChunk58 : lfsrIter 29696 1 = 465 := by
  rw [show (29696 : ℕ) = 512 + 29184 from by norm_num, lfsrIter_add, lfsrIterChunk57]
  decide

lemma lfsrIterChunk59 : lfsrIter 30208 1 = 15605 := by
  rw [show (30208 : ℕ) = 512 + 29696 from by norm_num, lfsrIter_add, lfsrIterChunk58]
  decide

lemma lfsrIterChunk60 : lfsrIter 30720 1 = 10369 := by
  rw [show (30720 : ℕ) = 512 + 30208 from by norm_num, lfsrIter_add, lfsrIterChunk59]
  decide

lemma lfsrIterChunk61 : lfsrIter 31232 1 = 19080 := by
  rw [show (31232 : ℕ) = 512 + 30720 from by norm_num, lfsrIter_add, lfsrIterChunk60]
  decide

lemma lfsrIterChunk62 : lfsrIter 31744 1 = 29928 := by
  rw [show (31744 : ℕ) = 512 + 31232 from by norm_num, lfsrIter_add, lfsrIterChunk61]
  decide

lemma lfsrIterChunk63 : lfsrIter 32256 1 = 21326 := by
  rw [show (32256 : ℕ) = 512 + 31744 from by norm_num, lfsrIter_add, lfsrIterChunk62]
  decide

lemma lfsrIterFull : lfsrIter 32767 1 = 1 := by
  rw [show (32767 : ℕ) = 511 + 32256 from by norm_num, lfsrIter_add, lfsrIterChunk63]
  decide

lemma lfsrIter4681 : lfsrIter 4681 1 = 19560 := by
  rw [show (4681 : ℕ) = 73 + 4608 from by norm_num, lfsrIter_add, lfsrIterChunk9]
  decide

lemma lfsrIter1057 : lfsrIter 1057 1 = 3648 := by
  rw [show (1057 : ℕ) = 33 + 1024 from by norm_num, lfsrIter_add, lfsrIterChunk2]
  decide

lemma lfsrIter217 : lfsrIter 217 1 = 32341 := by decide

lemma divisor_cases_32767 {m : ℕ} (hm : m ∣ 32767) :
    m = 32767 ∨ m ∣ 4681 ∨ m ∣ 1057 ∨ m ∣ 217 := by
  by_cases h7 : (7 : ℕ) ∣ m
  · by_cases h31 : (31 : ℕ) ∣ m
    · by_cases h151 : (151 : ℕ) ∣ m
      · left
        have h217 : (217 : ℕ) ∣ m := by
          have := Nat.Coprime.mul_dvd_of_dvd_of_dvd (show Nat.Coprime 7 31 by decide) h7 h31
          simpa using this
        have hall : (32767 : ℕ) ∣ m := by
          have := Nat.Coprime.mul_dvd_of_dvd_of_dvd
            (show Nat.Coprime 217 151 by decide) h217 h151
          simpa using this
        exact Nat.dvd_antisymm hm hall
      · right; right; right
        have hco : Nat.Coprime m 151 :=
          Nat.Coprime.symm ((Nat.Prime.coprime_iff_not_dvd (by norm_num)).mpr h151)
        exact hco.dvd_of_dvd_mul_right
          (show m ∣ 217 * 151 by rw [show (217 * 151 : ℕ) = 32767 by norm_num]; exact hm)
    · right; right; left
      have hco : Nat.Coprime m 31 :=
        Nat.Coprime.symm ((Nat.Prime.coprime_iff_not_dvd (by norm_num)).mpr h31)
      exact hco.dvd_of_dvd_mul_right
        (show m ∣ 1057 * 31 by rw [show (1057 * 31 : ℕ) = 32767 by norm_num]; exact hm)
  · right; left
    have hco : Nat.Coprime m 7 :=
      Nat.Coprime.symm ((Nat.Prime.coprime_iff_not_dvd (by norm_num)).mpr h7)
    exact hco.dvd_of_dvd_mul_right
      (show m ∣ 4681 * 7 by rw [show (4681 * 7 : ℕ) = 32767 by norm_num]; exact hm)

lemma lfsr_isPeriodicPt : Function.IsPeriodicPt lfsrStep 32767 1 := by
  show lfsrStep^[32767] 1 = 1
  rw [← lfsrIter_eq_iterate]
  exact lfsrIterFull

lemma lfsr_minimalPeriod : Function.minimalPeriod lfsrStep 1 = 32767 := by
  have hdvd := Function.IsPeriodicPt.minimalPeriod_dvd lfsr_isPeriodicPt
  rcases divisor_cases_32767 hdvd with h | h | h | h
  · exact h
  · exfalso
    have hp : Function.IsPeriodicPt lfsrStep 4681 1 :=
      Function.isPeriodicPt_iff_minimalPeriod_dvd.mpr h
    have h2 : lfsrIter 4681 1 = 1 := by rw [lfsrIter_eq_iterate]; exact hp
    rw [lfsrIter4681] at h2
    exact absurd h2 (by norm_num)
  · exfalso
    have hp : Function.IsPeriodicPt lfsrStep 1057 1 :=
      Function.isPeriodicPt_iff_minimalPeriod_dvd.mpr h
    have h2 : lfsrIter 1057 1 = 1 := by rw [lfsrIter_eq_iterate]; exact hp
    rw [lfsrIter1057] at h2
    exact absurd h2 (by norm_num)
  · exfalso
    have hp : Function.IsPeriodicPt lfsrStep 217 1 :=
      Function.isPeriodicPt_iff_minimalPeriod_dvd.mpr h
    have h2 : lfsrIter 217 1 = 1 := by rw [lfsrIter_eq_iterate]; exact hp
    rw [lfsrIter217] at h2
    exact absurd h2 (by norm_num)

lemma lor_eq_zero {a b : Nat} (h : a ||| b = 0) : a = 0 ∧ b = 0 := by
  constructor <;>
    (apply Nat.eq_of_testBit_eq
     intro i
     have h2 := congrArg (fun x => Nat.testBit x i) h
     simp only [Nat.testBit_or, Nat.zero_testBit, Bool.or_eq_false_iff] at h2) <;>
    simp [h2.1, h2.2]

lemma lfsrStep_bounds {s : Nat} (h1 : 0 < s) (h2 : s < 32768) :
    0 < lfsrStep s ∧ lfsrStep s < 32768 := by
  constructor
  · apply Nat.pos_of_ne_zero
    intro h0
    unfold lfsrStep at h0
    obtain ⟨ha, hb⟩ := lor_eq_zero h0
    have hs1 : s = 1 := by
      have hdiv : s / 2 = 0 := by
        have := Nat.shiftRight_eq_div_pow s 1
        simp only [pow_one] at this
        rw [← this]
        exact ha
      omega
    subst hs1
    exact absurd hb (by decide)
  · unfold lfsrStep
    rw [show (32768 : ℕ) = 2 ^ 15 by norm_num]
    apply Nat.or_lt_two_pow
    · have := Nat.shiftRight_eq_div_pow s 1
      simp only [pow_one] at this
      rw [this]
      omega
    · have hfb : (s &&& 0x1) ^^^ ((s >>> 1) &&& 0x1) < 2 :=
        Nat.xor_lt_two_pow (n := 1) (Nat.and_lt_two_pow s (by norm_num))
          (Nat.and_lt_two_pow (s >>> 1) (by norm_num))
      rw [Nat.shiftLeft_eq]
      have : ((s &&& 0x1) ^^^ ((s >>> 1) &&& 0x1)) * 2 ^ 14 ≤ 1 * 2 ^ 14 :=
        Nat.mul_le_mul_right _ (by omega)
      omega

lemma lfsr_iterate_mem (k : Nat) :
    0 < lfsrStep^[k] 1 ∧ lfsrStep^[k] 1 < 32768 := by
  induction k with
  | zero => exact ⟨by norm_num, by norm_num⟩
  | succ n ih =>
    rw [Function.iterate_succ_apply']
    exact lfsrStep_bounds ih.1 ih.2

lemma lfsr_visits_all_states (s : Nat) (hs1 : 0 < s) (hs2 : s < 32768) :
    ∃ k, k < 32767 ∧ lfsrStep^[k] 1 = s := by
  classical
  have hinj0 := @Function.iterate_injOn_Iio_minimalPeriod ℕ lfsrStep 1
  rw [lfsr_minimalPeriod] at hinj0
  have hsub : (Finset.range 32767).image (fun k => lfsrStep^[k] 1) ⊆
      Finset.Ioo 0 32768 := by
    intro x hx
    rcases Finset.mem_image.mp hx with ⟨k, _, hkx⟩
    subst hkx
    exact Finset.mem_Ioo.mpr ⟨(lfsr_iterate_mem k).1, (lfsr_iterate_mem k).2⟩
  have hcard : ((Finset.range 32767).image (fun k => lfsrStep^[k] 1)).card = 32767 := by
    rw [Finset.card_image_of_injOn (by rw [Finset.coe_range]; exact hinj0),
      Finset.card_range]
  have hEq : (Finset.range 32767).image (fun k => lfsrStep^[k] 1) =
      Finset.Ioo 0 32768 :=
    Finset.eq_of_subset_of_card_le hsub (by rw [hcard, Nat.card_Ioo])
  have hmem : s ∈ (Finset.range 32767).image (fun k => lfsrStep^[k] 1) := by
    rw [hEq]
    exact Finset.mem_Ioo.mpr ⟨hs1, hs2⟩
  rcases Finset.mem_image.mp hmem with ⟨k, hk, hks⟩
  exact ⟨k, Finset.mem_range.mp hk, hks⟩

/-- C6: each `Noise::generate` call computes `feedback = bit0 XOR bit1` of
the LFSR, shifts right by one inserting `feedback` at bit 14 (the
`lfsrStep` update), and outputs full effective volume exactly when
`feedback = 0` (else 0); moreover starting from the seed 1 the state
sequence is deterministic with minimal period 32767 and visits every
nonzero 15-bit state before repeating. -/
theorem noise_lfsr_step_and_maximal_period :
    (∀ (n : Noise) (regs : ChannelRegisters),
      (n.generate regs).1.shift_register = lfsrStep n.shift_register ∧
      (n.generate regs).2 =
        (if (n.shift_register &&& 0x1) ^^^ ((n.shift_register >>> 1) &&& 0x1) = 0
         then (regs.get_effective_volume).map (fun vol => 1 * vol)
         else some 0)) ∧
    Function.minimalPeriod lfsrStep Noise.default.shift_register = 32767 ∧
    (∀ s, 0 < s → s < 32768 →
      ∃ k, k < 32767 ∧ lfsrStep^[k] Noise.default.shift_register = s) :=
  ⟨fun _ _ => ⟨rfl, rfl⟩, lfsr_minimalPeriod, lfsr_visits_all_states⟩

/-- Witness for C6: a concrete nonzero 15-bit state is reached from the
seed within one period. -/
theorem noise_lfsr_witness :
    ∃ k, k < 32767 ∧ lfsrStep^[k] Noise.default.shift_register = 19560 :=
  noise_lfsr_step_and_maximal_period.2.2 19560 (by norm_num) (by norm_num)


/-! ### Claim C8: the mixer formula and output bounds -/

lemma rustRem_bounds {a b r : ℚ} (ha : 0 ≤ a) (hb : 0 < b)
    (h : rustRem a b = some r) : 0 ≤ r ∧ r < b := by
  unfold rustRem at h
  rw [if_neg hb.ne', Option.some.injEq] at h
  subst h
  unfold ratTrunc
  rw [if_pos (div_nonneg ha hb.le)]
  have h1 : (⌊a / b⌋ : ℚ) ≤ a / b := Int.floor_le _
  have h2 : a / b < ⌊a / b⌋ + 1 := Int.lt_floor_add_one _
  have h3 : (⌊a / b⌋ : ℚ) * b ≤ a := (le_div_iff₀ hb).mp h1
  have h4 : a < ((⌊a / b⌋ : ℚ) + 1) * b := (div_lt_iff₀ hb).mp h2
  constructor <;> nlinarith

lemma period_pos (p : Nat) : 0 < conversions.note_period_to_seconds p := by
  unfold conversions.note_period_to_seconds
  dsimp only
  have hp : (0 : ℚ) < (p : ℚ) + 1 := by positivity
  positivity

lemma volume_some_bounds {regs : ChannelRegisters} {v : ℚ} (hinv : RegsInv regs)
    (h : regs.get_effective_volume = some v) : 0 ≤ v ∧ v ≤ 1 := by
  obtain ⟨hd, hel, ht⟩ := hinv
  unfold ChannelRegisters.get_effective_volume at h
  split_ifs at h with h1 h2
  · rw [Option.some.injEq] at h
    subst h
    norm_num
  · dsimp only at h
    rcases Option.map_eq_some'.mp h with ⟨r, hr, hv⟩
    subst hv
    have htne : conversions.envelope_length_to_seconds regs.envelope_length ≠ 0 := by
      intro h0
      rw [h0] at hr
      unfold rustRem at hr
      rw [if_pos rfl] at hr
      exact absurd hr (by simp)
    have htpos : 0 < conversions.envelope_length_to_seconds regs.envelope_length := by
      have hge : 0 ≤ conversions.envelope_length_to_seconds regs.envelope_length := by
        unfold conversions.envelope_length_to_seconds
        positivity
      exact lt_of_le_of_ne hge (Ne.symm htne)
    have hb := rustRem_bounds ht htpos hr
    have hdiv0 : 0 ≤ r / conversions.envelope_length_to_seconds regs.envelope_length :=
      div_nonneg hb.1 htpos.le
    have hdiv1 : r / conversions.envelope_length_to_seconds regs.envelope_length < 1 :=
      (div_lt_one htpos).mpr hb.2
    constructor <;> linarith
  · rw [Option.some.injEq] at h
    subst h
    unfold CHANNEL_MAX_VOLUME
    constructor
    · positivity
    · rw [div_le_one (by norm_num)]
      exact_mod_cast hel

lemma square_bounds {regs : ChannelRegisters} {q : ℚ} (hinv : RegsInv regs)
    (h : SquareWave.generate regs = some q) : 0 ≤ q ∧ q ≤ 1 := by
  unfold SquareWave.generate at h
  dsimp only at h
  rcases Option.bind_eq_some.mp h with ⟨rem, hrem, h2⟩
  rcases Option.bind_eq_some.mp h2 with ⟨value, hval, h3⟩
  rcases Option.map_eq_some'.mp h3 with ⟨vol, hvol, hq⟩
  subst hq
  have hvb := volume_some_bounds hinv hvol
  split_ifs at hval <;>
    (rw [Option.some.injEq] at hval
     subst hval) <;>
    constructor <;>
    first
      | (simp; done)
      | (simpa using hvb.1)
      | (simpa using hvb.2)

lemma triangle_bounds {regs : ChannelRegisters} {q : ℚ} (hinv : RegsInv regs)
    (h : TriangleWave.generate regs = some q) : 0 ≤ q ∧ q ≤ 1 := by
  have hp := period_pos regs.get_effective_period
  unfold TriangleWave.generate at h
  dsimp only at h
  rcases Option.bind_eq_some.mp h with ⟨rem, hrem, h2⟩
  rcases Option.map_eq_some'.mp h2 with ⟨vol, hvol, hq⟩
  subst hq
  have hvb := volume_some_bounds hinv hvol
  have hb := rustRem_bounds hinv.2.2 hp hrem
  have h0 : 0 ≤ rem / conversions.note_period_to_seconds regs.get_effective_period :=
    div_nonneg hb.1 hp.le
  have h1 : rem / conversions.note_period_to_seconds regs.get_effective_period < 1 :=
    (div_lt_one hp).mpr hb.2
  split_ifs with hc
  · constructor <;> nlinarith [hvb.1, hvb.2]
  · constructor <;> nlinarith [hvb.1, hvb.2]

lemma noise_bounds {n : Noise} {regs : ChannelRegisters} {v : ℚ} (hinv : RegsInv regs)
    (h : (n.generate regs).2 = some v) : 0 ≤ v ∧ v ≤ 1 := by
  unfold Noise.generate at h
  dsimp only at h
  split_ifs at h
  · rcases Option.map_eq_some'.mp h with ⟨vol, hvol, hv⟩
    subst hv
    have hvb := volume_some_bounds hinv hvol
    rw [one_mul]
    exact hvb
  · rw [Option.some.injEq] at h
    subst h
    norm_num

lemma regsInv_default : RegsInv ChannelRegisters.default :=
  ⟨by norm_num [ChannelRegisters.default], by norm_num [ChannelRegisters.default],
   by norm_num [ChannelRegisters.default]⟩

lemma regsInv_write {regs r2 : ChannelRegisters} {r v : Nat}
    (h : regs.write r v = some r2) (hinv : RegsInv regs) : RegsInv r2 := by
  obtain ⟨hd, hel, ht⟩ := hinv
  unfold ChannelRegisters.write at h
  split_ifs at h <;>
    (rw [Option.some.injEq] at h
     subst h) <;>
    exact ⟨by first | exact Nat.and_le_right | exact hd,
           by first | exact Nat.and_le_right | exact hel,
           by first | exact le_refl _ | exact ht⟩

lemma chipInv_write {chip chip2 : SoundChip} {r v : Nat}
    (h : chip.write r v = some chip2) (hinv : ChipInv chip) : ChipInv chip2 := by
  obtain ⟨h1, h2, h3, h4⟩ := hinv
  unfold SoundChip.write at h
  split_ifs at h
  · rcases Option.map_eq_some'.mp h with ⟨rr, hrr, hc⟩
    subst hc
    exact ⟨regsInv_write hrr h1, h2, h3, h4⟩
  · rcases Option.map_eq_some'.mp h with ⟨rr, hrr, hc⟩
    subst hc
    exact ⟨h1, regsInv_write hrr h2, h3, h4⟩
  · rcases Option.map_eq_some'.mp h with ⟨rr, hrr, hc⟩
    subst hc
    exact ⟨h1, h2, regsInv_write hrr h3, h4⟩
  · rcases Option.map_eq_some'.mp h with ⟨rr, hrr, hc⟩
    subst hc
    exact ⟨h1, h2, h3, regsInv_write hrr h4⟩

lemma regsInv_tick {regs : ChannelRegisters} {rate : ℚ} (hrate : 0 < rate)
    (hinv : RegsInv regs) : RegsInv (regs.tick rate) := by
  obtain ⟨hd, hel, ht⟩ := hinv
  refine ⟨hd, hel, ?_⟩
  show 0 ≤ regs.time_since_note + 1 / rate
  have : (0 : ℚ) < 1 / rate := by positivity
  linarith

lemma chipInv_generate {chip chip2 : SoundChip} {rate out : ℚ}
    (hrate : 0 < rate) (h : chip.generate rate = some (chip2, out))
    (hinv : ChipInv chip) : ChipInv chip2 := by
  obtain ⟨h1, h2, h3, h4⟩ := hinv
  unfold SoundChip.generate at h
  simp only [Option.bind_eq_bind] at h
  rcases Option.bind_eq_some.mp h with ⟨v1, hv1, h5⟩
  rcases Option.bind_eq_some.mp h5 with ⟨v2, hv2, h6⟩
  rcases Option.bind_eq_some.mp h6 with ⟨v3, hv3, h7⟩
  rcases Option.bind_eq_some.mp h7 with ⟨v4, hv4, h8⟩
  rw [Option.some.injEq, Prod.mk.injEq] at h8
  obtain ⟨h9, -⟩ := h8
  subst h9
  exact ⟨regsInv_tick hrate h1, regsInv_tick hrate h2, regsInv_tick hrate h3,
    regsInv_tick hrate h4⟩

lemma reachable_chipInv {chip : SoundChip} (h : chip.Reachable) : ChipInv chip := by
  induction h with
  | init =>
    exact ⟨regsInv_default, regsInv_default, regsInv_default, regsInv_default⟩
  | write_step chip chip2 r v hr hw ih => exact chipInv_write hw ih
  | generate_step chip chip2 rate out hr hrate hg ih => exact chipInv_generate hrate hg ih

lemma rustRem_isSome (a : ℚ) {b : ℚ} (hb : b ≠ 0) :
    rustRem a b = some (a - b * ratTrunc (a / b)) := by
  unfold rustRem
  rw [if_neg hb]

lemma bind_const_none {α β : Type} (x : Option α) :
    x.bind (fun _ => (none : Option β)) = none := by
  cases x <;> rfl

lemma square_generate_none {regs : ChannelRegisters}
    (h : regs.get_effective_volume = none) : SquareWave.generate regs = none := by
  unfold SquareWave.generate
  dsimp only
  simp only [h, Option.map_none', bind_const_none]

lemma envZero_volume_none :
    (ChannelRegisters.tick
      { ChannelRegisters.default with envelope := true, note_length := 1 }
      44100).get_effective_volume = none := by
  unfold ChannelRegisters.tick ChannelRegisters.default
    ChannelRegisters.get_effective_volume conversions.note_length_to_seconds
    conversions.envelope_length_to_seconds rustRem
  norm_num

lemma default_volume_some_zero :
    (ChannelRegisters.tick ChannelRegisters.default 44100).get_effective_volume =
      some 0 := by
  unfold ChannelRegisters.tick ChannelRegisters.default
    ChannelRegisters.get_effective_volume conversions.note_length_to_seconds
  norm_num

lemma square_default_gen :
    SquareWave.generate (ChannelRegisters.tick ChannelRegisters.default 44100) =
      some 0 := by
  unfold SquareWave.generate
  dsimp only
  rw [rustRem_isSome _ (period_pos _).ne']
  simp only [Option.some_bind, default_volume_some_zero, Option.map_some', mul_zero]
  norm_num [ChannelRegisters.tick, ChannelRegisters.default]

lemma triangle_default_gen :
    TriangleWave.generate (ChannelRegisters.tick ChannelRegisters.default 44100) =
      some 0 := by
  unfold TriangleWave.generate
  dsimp only
  rw [rustRem_isSome _ (period_pos _).ne']
  simp only [Option.some_bind, default_volume_some_zero, Option.map_some', mul_zero]

lemma noise_default_gen :
    (Noise.generate Noise.default
      (ChannelRegisters.tick ChannelRegisters.default 44100)).2 = some 0 := rfl

/-- C8 counterexample: the divide-by-zero envelope configuration (envelope
enabled, `envelope_or_volume = 0`, note active) is reachable through two
register writes from the default chip, and at that state the float
arithmetic in `get_effective_volume` divides by zero: the sample is NaN
(modelled `none`), not a number in [0, 0.34], so the claim as stated is
false on the code. -/
theorem mixer_nan_sample_counterexample :
    SoundChip.Reachable envZeroChip ∧
      SoundChip.generate envZeroChip 44100 = none := by
  constructor
  · exact SoundChip.Reachable.write_step envZeroChipMid envZeroChip 0xA3 0x08
      (SoundChip.Reachable.write_step SoundChip.default envZeroChipMid 0xA0 0x10
        SoundChip.Reachable.init rfl) rfl
  · have hsq : SquareWave.generate (envZeroChip.square_wave_1.registers.tick 44100) =
        none := square_generate_none envZero_volume_none
    unfold SoundChip.generate
    simp only [Option.bind_eq_bind, hsq, Option.none_bind]

/-- C8 (amended): whenever a `generate` call on a reachable sound-chip
state at a positive sample rate returns a (non-NaN) sample, that sample is
exactly `0.06016 * sq1 + 0.06016 * sq2 + 0.13616 * tri + 0.07904 * noise`
with each channel term in [0, 1], hence nonnegative and at most 0.34.
(With a channel envelope enabled and `envelope_or_volume = 0` during an
active note, `generate` instead produces a NaN sample — see the
counterexample.) -/
theorem mixer_formula_and_bounds (chip chip2 : SoundChip) (rate out : ℚ)
    (hreach : chip.Reachable) (hrate : 0 < rate)
    (hgen : chip.generate rate = some (chip2, out)) :
    ∃ q1 q2 q3 q4,
      out = 0.06016 * q1 + 0.06016 * q2 + 0.13616 * q3 + 0.07904 * q4 ∧
      (0 ≤ q1 ∧ q1 ≤ 1) ∧ (0 ≤ q2 ∧ q2 ≤ 1) ∧ (0 ≤ q3 ∧ q3 ≤ 1) ∧
      (0 ≤ q4 ∧ q4 ≤ 1) ∧
      0 ≤ out ∧ out ≤ 0.34 := by
  obtain ⟨h1, h2, h3, h4⟩ := reachable_chipInv hreach
  unfold SoundChip.generate at hgen
  simp only [Option.bind_eq_bind] at hgen
  rcases Option.bind_eq_some.mp hgen with ⟨v1, hv1, hg2⟩
  rcases Option.bind_eq_some.mp hg2 with ⟨v2, hv2, hg3⟩
  rcases Option.bind_eq_some.mp hg3 with ⟨v3, hv3, hg4⟩
  rcases Option.bind_eq_some.mp hg4 with ⟨v4, hv4, hg5⟩
  rw [Option.some.injEq, Prod.mk.injEq] at hg5
  obtain ⟨-, hout⟩ := hg5
  obtain ⟨h01, h11⟩ := square_bounds (regsInv_tick hrate h1) hv1
  obtain ⟨h02, h12⟩ := square_bounds (regsInv_tick hrate h2) hv2
  obtain ⟨h03, h13⟩ := triangle_bounds (regsInv_tick hrate h3) hv3
  obtain ⟨h04, h14⟩ := noise_bounds (regsInv_tick hrate h4) hv4
  refine ⟨v1, v2, v3, v4, ?_, ⟨h01, h11⟩, ⟨h02, h12⟩, ⟨h03, h13⟩, ⟨h04, h14⟩, ?_, ?_⟩
  · rw [show (0.06016 : ℚ) = 0.00376 * 16 by norm_num,
      show (0.13616 : ℚ) = 0.00851 * 16 by norm_num,
      show (0.07904 : ℚ) = 0.00494 * 16 by norm_num]
    exact hout.symm
  · rw [← hout]
    have e1 : (0 : ℚ) ≤ 0.00376 * 16 * v1 := by nlinarith
    have e2 : (0 : ℚ) ≤ 0.00376 * 16 * v2 := by nlinarith
    have e3 : (0 : ℚ) ≤ 0.00851 * 16 * v3 := by nlinarith
    have e4 : (0 : ℚ) ≤ 0.00494 * 16 * v4 := by nlinarith
    linarith
  · rw [← hout]
    have e1 : (0.00376 * 16 : ℚ) * v1 ≤ 0.00376 * 16 := by nlinarith
    have e2 : (0.00376 * 16 : ℚ) * v2 ≤ 0.00376 * 16 := by nlinarith
    have e3 : (0.00851 * 16 : ℚ) * v3 ≤ 0.00851 * 16 := by nlinarith
    have e4 : (0.00494 * 16 : ℚ) * v4 ≤ 0.00494 * 16 := by nlinarith
    linarith

/-- Witness for the amended C8: the default chip at 44100 Hz produces the
sample 0. -/
theorem mixer_formula_and_bounds_witness :
    ∃ q1 q2 q3 q4,
      (0 : ℚ) = 0.06016 * q1 + 0.06016 * q2 + 0.13616 * q3 + 0.07904 * q4 ∧
      (0 ≤ q1 ∧ q1 ≤ 1) ∧ (0 ≤ q2 ∧ q2 ≤ 1) ∧ (0 ≤ q3 ∧ q3 ≤ 1) ∧
      (0 ≤ q4 ∧ q4 ≤ 1) ∧
      (0 : ℚ) ≤ 0 ∧ (0 : ℚ) ≤ 0.34 :=
  mixer_formula_and_bounds SoundChip.default defaultGenChip 44100 0
    SoundChip.Reachable.init (by norm_num)
    (by
      show SoundChip.default.generate 44100 = some (defaultGenChip, 0)
      unfold SoundChip.generate SoundChip.default
      dsimp only
      simp only [Option.bind_eq_bind, square_default_gen, triangle_default_gen,
        noise_default_gen, Option.some_bind, mul_zero, add_zero]
      rfl)

end SixFive
